import Mathlib

/-!
Verification of the Statement Policy Gateway of the mariadb-mcp-server
repository: a shallow embedding of the SQL policy validator
(src/v2/src/validators.ts, src/src/validators.ts), the query executor
(src/src/connection.ts), the pool registry (src/v1/db.js) and the tool
handlers (src/src/index.ts), together with theorems settling the spec
claims about them.

Process environment values (the MARIADB_ALLOW_* flags) are passed as
explicit parameters; everything else follows the source line by line.
-/

set_option linter.unusedVariables false

/-! ## Character helpers

JS semantics used by the validator: the whitespace class of the regexes
`\s+` and `(^|\s)`, ASCII upper-casing as performed by `toUpperCase` on
the characters that occur in SQL text, and the word-character class of a
regex word boundary (used only to state the spec side of claim C1).
-/

/-- The ASCII part of the JS regex class `\s` (space, tab, newline,
carriage return, vertical tab, form feed). -/
def isWsChar (c : Char) : Bool :=
  c == ' ' || c == '\t' || c == '\n' || c == '\r' || c == '\x0b' || c == '\x0c'

/-- ASCII upper-casing, as `String.prototype.toUpperCase` acts on ASCII. -/
def toUpperAscii (c : Char) : Char :=
  if 'a' ≤ c && c ≤ 'z' then Char.ofNat (c.toNat - 32) else c

/-- The backtick character, used by the identifier-quoting statements. -/
def backtick : Char := Char.ofNat 96

/-! ## Normalization (validators.ts lines 46-52)

The JS pipeline: remove line comments (two dashes to end of line), remove
block comments (slash-star to the nearest star-slash, non-greedy), collapse
whitespace runs to one space, trim, uppercase.
-/

/-- Line-comment removal: from each pair of dashes on, drop characters up
to (but not including) the end of the line, as the global multiline JS
replace of the line-comment regex does.  The flag is true while inside a
line comment. -/
def stripLineCommentsAux : Bool → List Char → List Char
  | _, [] => []
  | true, '\n' :: rest => '\n' :: stripLineCommentsAux false rest
  | true, _ :: rest => stripLineCommentsAux true rest
  | false, '-' :: '-' :: rest => stripLineCommentsAux true rest
  | false, c :: rest => c :: stripLineCommentsAux false rest

def stripLineComments (l : List Char) : List Char :=
  stripLineCommentsAux false l

/-- Does a star-slash pair occur somewhere in the list? -/
def hasBlockClose : List Char → Bool
  | [] => false
  | '*' :: '/' :: _ => true
  | _ :: rest => hasBlockClose rest

/-- Block-comment removal: each slash-star is dropped together with
everything up to and including the nearest following star-slash; a
slash-star with no closing star-slash anywhere after it is left in place
(the non-greedy regex cannot match it, and no later match is possible
without a closing pair).  The flag is true while inside a block
comment. -/
def stripBlockCommentsAux : Bool → List Char → List Char
  | _, [] => []
  | true, '*' :: '/' :: rest => stripBlockCommentsAux false rest
  | true, _ :: rest => stripBlockCommentsAux true rest
  | false, '/' :: '*' :: rest =>
      if hasBlockClose rest then stripBlockCommentsAux true rest
      else '/' :: '*' :: rest
  | false, c :: rest => c :: stripBlockCommentsAux false rest

def stripBlockComments (l : List Char) : List Char :=
  stripBlockCommentsAux false l

/-- Whitespace collapse: each maximal run of whitespace becomes one
space. -/
def collapseWs : List Char → List Char
  | [] => []
  | [c] => if isWsChar c then [' '] else [c]
  | c :: d :: rest =>
      if isWsChar c && isWsChar d then collapseWs (d :: rest)
      else (if isWsChar c then ' ' else c) :: collapseWs (d :: rest)

/-- JS `trim()`: remove whitespace from both ends. -/
def trimChars (l : List Char) : List Char :=
  ((l.dropWhile (fun c => isWsChar c)).reverse.dropWhile
    (fun c => isWsChar c)).reverse

/-- The full normalization pipeline of validators.ts lines 46-52. -/
def normalizeQuery (query : String) : String :=
  String.mk
    (((trimChars (collapseWs (stripBlockComments
      (stripLineComments query.data)))).map toUpperAscii))

/-! ## The policy lists (src/v2/src/validators.ts lines 7-38) -/

def ALLOWED_COMMANDS : List String :=
  ["SELECT", "SHOW", "DESCRIBE", "DESC", "EXPLAIN", "INSERT", "UPDATE",
   "DELETE"]

def DISALLOWED_COMMANDS : List String :=
  ["DROP", "CREATE", "ALTER", "TRUNCATE", "RENAME", "REPLACE", "GRANT",
   "REVOKE", "LOCK", "UNLOCK", "CALL", "EXEC", "EXECUTE", "SET", "START",
   "BEGIN", "COMMIT", "ROLLBACK"]

/-- The three MARIADB_ALLOW_* environment flags read by the validator. -/
structure Permissions where
  allow_insert : Bool
  allow_update : Bool
  allow_delete : Bool
deriving DecidableEq, Repr

/-! ## The validator (src/v2/src/validators.ts lines 45-85) -/

/-- Test of the regex `(^|\s)cmd(\s|$)` at successive positions of the
normalized text: a match needs the command preceded by start-of-string or
a whitespace character and followed by end-of-string or a whitespace
character.  `boundary` records whether the current position is preceded by
start-of-string or whitespace. -/
def delimitedMatchAux (cmd : List Char) (boundary : Bool) : List Char → Bool
  | [] => false
  | c :: rest =>
      (boundary && cmd.isPrefixOf (c :: rest) &&
        (match (c :: rest).drop cmd.length with
         | [] => true
         | d :: _ => isWsChar d)) ||
      delimitedMatchAux cmd (isWsChar c) rest

/-- Existence test of the regex match, as `regex.test(normalizedQuery)`. -/
def delimitedMatch (cmd : List Char) (s : List Char) : Bool :=
  delimitedMatchAux cmd true s

/-- validators.ts lines 58-60: the normalized query starts with an allowed
command followed by a space, or equals the command. -/
def startsWithAllowed (normalizedQuery : List Char) : Bool :=
  ALLOWED_COMMANDS.any (fun cmd =>
    (cmd.data ++ [' ']).isPrefixOf normalizedQuery ||
      normalizedQuery == cmd.data)

/-- validators.ts lines 64-76: some disallowed command occurs
whitespace-delimited in the normalized query.  The three guard branches
skip INSERT / UPDATE / DELETE when the matching flag is unset; none of the
three strings occurs in `DISALLOWED_COMMANDS`, so the guards never fire. -/
def containsDisallowed (p : Permissions) (normalizedQuery : List Char) : Bool :=
  DISALLOWED_COMMANDS.any (fun cmd =>
    if cmd == "INSERT" && !p.allow_insert then false
    else if cmd == "UPDATE" && !p.allow_update then false
    else if cmd == "DELETE" && !p.allow_delete then false
    else delimitedMatch cmd.data normalizedQuery)

/-- validators.ts lines 79-80:
`normalizedQuery.includes(";") && !normalizedQuery.endsWith(";")`. -/
def hasMultipleStatements (normalizedQuery : List Char) : Bool :=
  normalizedQuery.contains ';' &&
    !(match normalizedQuery.getLast? with
      | some c => c == ';'
      | none => false)

/-- src/v2/src/validators.ts lines 45-85 (the validator imported by the
query executor in src/src/connection.ts).  The MARIADB_ALLOW_* environment
flags are passed explicitly as `p`. -/
def isAlloowedQuery (p : Permissions) (query : String) : Bool :=
  let normalizedQuery := (normalizeQuery query).data
  let startsWithAllowedQ := startsWithAllowed normalizedQuery
  let startsWithAllowedNoSpace :=
    ("INSERT".data.isPrefixOf normalizedQuery) && !p.allow_insert
  let containsDisallowedQ := containsDisallowed p normalizedQuery
  let hasMultipleStatementsQ := hasMultipleStatements normalizedQuery
  startsWithAllowedQ && !containsDisallowedQ && !hasMultipleStatementsQ

/-- src/src/validators.ts lines 45-64: this variant computes the same
normalization and the multi-statement check, then ignores them and returns
`true` for every input. -/
def isAllowedQuery (query : String) : Bool :=
  let normalizedQuery := (normalizeQuery query).data
  let hasMultipleStatementsQ := hasMultipleStatements normalizedQuery
  true

/-! ## Claim-side predicates

Two predicates written from the words of the spec and the claims (not from
the source), used to compare the claimed behavior with the code: the
word-boundary occurrence of claim C1 and the internal-semicolon condition
of claim C3.
-/

/-- Modelled from the spec: the word-character class of a regex word
boundary (letters, digits, underscore). -/
def isWordChar (c : Char) : Bool :=
  ('A' ≤ c && c ≤ 'Z') || ('a' ≤ c && c ≤ 'z') ||
    ('0' ≤ c && c ≤ '9') || c == '_'

/-- Modelled from the spec: occurrence of `cmd` "as a whole word
(word-boundary match, not substring)": the occurrence is preceded by
start-of-string or a non-word character and followed by end-of-string or a
non-word character.  `boundary` records whether the current position is
preceded by start-of-string or a non-word character. -/
def wholeWordAux (cmd : List Char) (boundary : Bool) : List Char → Bool
  | [] => false
  | c :: rest =>
      (boundary && cmd.isPrefixOf (c :: rest) &&
        (match (c :: rest).drop cmd.length with
         | [] => true
         | d :: _ => !isWordChar d)) ||
      wholeWordAux cmd (!isWordChar c) rest

def wholeWordOccurs (cmd : List Char) (s : List Char) : Bool :=
  wholeWordAux cmd true s

/-- Modelled from the spec (claim C1): some deny-list verb occurs in the
text as a whole word. -/
def containsDenyWholeWord (s : List Char) : Bool :=
  DISALLOWED_COMMANDS.any (fun cmd => wholeWordOccurs cmd.data s)

/-- Code-side counterpart used in the amended claim C1: some deny-list
verb occurs whitespace-delimited (the match the code actually performs),
independent of any permission flag. -/
def containsDenyDelimited (s : List Char) : Bool :=
  DISALLOWED_COMMANDS.any (fun cmd => delimitedMatch cmd.data s)

/-- Modelled from the spec (claim C3): the text contains a semicolon that
is not exactly the final character, i.e. a semicolon occurs among all
characters but the last. -/
def hasInnerSemicolon (s : List Char) : Bool :=
  s.dropLast.contains ';'

/-! ## The query executor (src/src/connection.ts lines 40-97)

The executor is modelled as a pure function over an environment that fixes
the outcome of each effectful step (connection acquisition, the USE
context switch, and the raced statement execution).  The value of a MySQL
result is either an array of rows or a non-array scalar, matching the
dynamic `Array.isArray(rows)` test; rows and fields are abstract tokens
(natural numbers).  The function returns the thrown-or-returned outcome
together with the number of `connection.release()` calls performed, so
that the lease accounting of claims C4 and C5 can be stated.
-/

/-- Default connection timeout in milliseconds (connection.ts line 10). -/
def DEFAULT_TIMEOUT : Nat := 10000

/-- Default row limit for query results (connection.ts line 13). -/
def DEFAULT_ROW_LIMIT : Nat := 1000

/-- A MySQL result value: an array of rows, or a scalar (non-array)
value.  `Array.isArray` distinguishes the two. -/
inductive RowsValue where
  | arr (rows : List Nat)
  | scalar (v : Nat)
deriving DecidableEq, Repr

/-- The result object `{ rows, fields }` returned by `executeQuery`
(types.ts lines 39-42: `QueryResult` has exactly the members `rows` and
`fields`, nothing else). -/
structure QueryResult where
  rows : RowsValue
  fields : List Nat
deriving DecidableEq, Repr

/-- Outcome of the raced statement execution (connection.ts lines 63-68):
the statement resolves with a result, rejects with an upstream error, or
the timeout promise rejects first. -/
inductive QueryOutcome where
  | ok (rows : RowsValue) (fields : List Nat)
  | fail
  | timeout
deriving DecidableEq, Repr

/-- The injected behavior of the effectful steps of one `executeQuery`
call. -/
structure ExecEnv where
  acquireOk : Bool
  useOk : Bool
  outcome : QueryOutcome
deriving DecidableEq, Repr

/-- The distinct error exits of `executeQuery`. -/
inductive ExecError where
  | connectionError
  | useFailed
  | notAllowed
  | queryTimeout
  | upstream
deriving DecidableEq, Repr

deriving instance DecidableEq for Except

/-- Row-limit application (connection.ts lines 74-77):
`Array.isArray(rows) && rows.length > DEFAULT_ROW_LIMIT ?
 rows.slice(0, DEFAULT_ROW_LIMIT) : rows`. -/
def limitRows : RowsValue → RowsValue
  | .arr rows =>
      if rows.length > DEFAULT_ROW_LIMIT then .arr (rows.take DEFAULT_ROW_LIMIT)
      else .arr rows
  | .scalar v => .scalar v

/-- src/src/connection.ts lines 40-97, `executeQuery(pool, sql, params,
database)`.  Returns the outcome together with the number of
`connection.release()` calls.  Control flow of the source:

* `connection = await pool.getConnection()` — if acquisition throws, the
  `connection` variable is still null, so neither the catch block nor the
  finally block releases anything;
* `if (database) await connection.query(USE ...)` — a context-switch
  failure throws before validation;
* `if (!isAlloowedQuery(sql)) throw` — policy denial;
* the raced execution times out or fails, or resolves and the row limit is
  applied;
* on any thrown error the catch block runs `if (connection)
  connection.release()` and rethrows, and the finally block runs the same
  release again; on success only the finally block releases. -/
def executeQuery (env : ExecEnv) (p : Permissions) (sql : String)
    (database : Option String) : Except ExecError QueryResult × Nat :=
  if !env.acquireOk then
    (Except.error ExecError.connectionError, 0)
  else
    let body : Except ExecError QueryResult :=
      if database.isSome && !env.useOk then Except.error ExecError.useFailed
      else if !(isAlloowedQuery p sql) then Except.error ExecError.notAllowed
      else
        match env.outcome with
        | QueryOutcome.timeout => Except.error ExecError.queryTimeout
        | QueryOutcome.fail => Except.error ExecError.upstream
        | QueryOutcome.ok rows fields =>
            Except.ok { rows := limitRows rows, fields := fields }
    match body with
    | Except.error e => (Except.error e, 1 + 1)
    | Except.ok r => (Except.ok r, 1)

/-! ## The tool handlers (src/src/index.ts)

Each handler either issues a statement through the executor (with an
optional logical database) or rejects the call with an InvalidParams
error.  Only the decision and the issued text are modelled; the MCP
framing is glue.
-/

/-- The action a tool handler takes: run a statement (with an optional
logical database), or fail with an InvalidParams error message. -/
inductive ToolAction where
  | execute (sql : String) (database : Option String)
  | invalidParams (message : String)
deriving DecidableEq, Repr

/-- Is the action a parameter error? -/
def isParamError : ToolAction → Bool
  | ToolAction.invalidParams _ => true
  | ToolAction.execute _ _ => false

/-- index.ts lines 150-168 (and 413-430): the list_tables handler reads
the optional `database` argument and issues `SHOW FULL TABLES` with it,
with no check that a database was given or configured. -/
def listTablesHandler (database : Option String) : ToolAction :=
  ToolAction.execute "SHOW FULL TABLES" database

/-- index.ts lines 170-193 (and 432-458): the describe_table handler
requires a table name (`if (!table)` also rejects the empty string, which
is falsy) and issues `DESCRIBE` with the table name placed between
backticks with no escaping. -/
def describeTableHandler (database : Option String) (table : Option String) :
    ToolAction :=
  match table with
  | none => ToolAction.invalidParams "Table name is required"
  | some t =>
      if t = "" then ToolAction.invalidParams "Table name is required"
      else
        ToolAction.execute
          ("DESCRIBE " ++ String.mk [backtick] ++ t ++ String.mk [backtick])
          database

/-- connection.ts line 57 (also index.ts line 606 and v1/db.js line 126):
the context-switch statement sent when a logical database is given, built
by template-literal concatenation with the database name inserted
verbatim. -/
def buildUseStatement (database : String) : String :=
  "USE " ++ String.mk [backtick] ++ database ++ String.mk [backtick]

/-! ## Identifier parsing (claim-side, for C9 and C10)

MariaDB reads a backtick-quoted identifier by taking characters until the
closing backtick, where a doubled backtick inside the quotes stands for a
literal backtick.  This models the claims' notion of the interpolated text
"escaping the identifier position": the interpolation stays inside the
identifier position exactly when the parsed identifier is the whole
interpolated text and nothing is left over before the closing quote.
-/

/-- Modelled from the spec: parse the body of a backtick-quoted
identifier.  The input is the text after the opening backtick; the result
is the identifier content and the text after the closing backtick, or none
when the quote is unterminated. -/
def parseBacktickIdent : List Char → Option (List Char × List Char)
  | [] => none
  | c :: rest =>
      if c = backtick then
        match rest with
        | d :: rest' =>
            if d = backtick then
              (parseBacktickIdent rest').map (fun p => (backtick :: p.1, p.2))
            else some ([], rest)
        | [] => some ([], [])
      else
        (parseBacktickIdent rest).map (fun p => (c :: p.1, p.2))

/-- Parse a statement of the form `kind` + backtick-quoted identifier: the
identifier MariaDB would read and the text remaining after its closing
backtick. -/
def parseQuotedTail (head : String) (stmt : String) : Option (String × String) :=
  if head.data.isPrefixOf stmt.data then
    match parseBacktickIdent (stmt.data.drop head.data.length) with
    | some (content, rest) => some (String.mk content, String.mk rest)
    | none => none
  else none

/-! ## The pool registry (src/v1/db.js lines 83-116)

The process-wide `pools` map, keyed by the string `getPoolKey` derives
from a config.  A pool instance is identified by the number it received at
creation; `nextId` counts created pools.
-/

/-- The connection configuration of types.ts lines 6-15. -/
structure MariaDBConfig where
  host : String
  port : Nat
  user : String
  password : String
  database : Option String
  allow_insert : Bool
  allow_update : Bool
  allow_delete : Bool
deriving DecidableEq, Repr

/-- Replace every dot with an underscore, as
`cfg.host.split(".").join("_")` does for the one-character separator. -/
def dotsToUnderscores : List Char → List Char
  | [] => []
  | c :: rest => (if c = '.' then '_' else c) :: dotsToUnderscores rest

/-- v1/db.js lines 83-86: the pool key template literal.  A JS template
literal renders an undefined `cfg.database` as the text "undefined". -/
def getPoolKey (cfg : MariaDBConfig) : String :=
  String.mk (dotsToUnderscores cfg.host.data) ++ "_" ++ cfg.user ++ "_" ++
    (match cfg.database with
     | some d => d
     | none => "undefined")

/-- The process-wide registry: the key-to-pool map in insertion order, and
the identity the next created pool will receive. -/
structure PoolRegistry where
  pools : List (String × Nat)
  nextId : Nat
deriving DecidableEq, Repr

/-- Lookup of `pools[key]`. -/
def findPool : List (String × Nat) → String → Option Nat
  | [], _ => none
  | (k, v) :: rest, key => if k == key then some v else findPool rest key

/-- v1/db.js lines 92-116: `if (!pools[key]) pools[key] =
mariadb.createPool(...)`, then use `pools[key]` — the pool for the key is
created lazily on first use and the existing pool is used otherwise. -/
def getOrCreatePool (st : PoolRegistry) (cfg : MariaDBConfig) :
    Nat × PoolRegistry :=
  let key := getPoolKey cfg
  match findPool st.pools key with
  | some p => (p, st)
  | none =>
      (st.nextId, { pools := st.pools ++ [(key, st.nextId)],
                    nextId := st.nextId + 1 })

/-! ## Shared lemmas -/

/-- None of the three permission-guarded names INSERT, UPDATE, DELETE is a
member of `DISALLOWED_COMMANDS`, so the guard branches of
`containsDisallowed` never fire. -/
theorem disallowed_not_guarded :
    DISALLOWED_COMMANDS.all (fun cmd =>
      !(cmd == "INSERT") && !(cmd == "UPDATE") && !(cmd == "DELETE")) = true := by
  decide

/-- A whitespace-delimited occurrence of a deny-list verb makes
`containsDisallowed` true for every permission configuration. -/
theorem containsDisallowed_of_delimited (p : Permissions) {nq : List Char}
    (h : containsDenyDelimited nq = true) : containsDisallowed p nq = true := by
  rcases List.any_eq_true.mp h with ⟨cmd, hmem, hmatch⟩
  refine List.any_eq_true.mpr ⟨cmd, hmem, ?_⟩
  have hg := List.all_eq_true.mp disallowed_not_guarded cmd hmem
  simp only [Bool.and_eq_true, Bool.not_eq_true'] at hg
  obtain ⟨⟨h1, h2⟩, h3⟩ := hg
  simp [h1, h2, h3, hmatch]

/-! ## Claim C1 -/

/-- C1 (counterexample): the claim promises a denial for every statement
whose normalized text contains a deny-list verb as a whole word
(word-boundary match).  In `SELECT (SET)` the verb SET occurs as a whole
word — both neighbours are parentheses, which are word boundaries — yet the
validator allows the statement, because its match requires whitespace (or
the ends of the string) around the verb, not a word boundary. -/
theorem C1_counterexample :
    containsDenyWholeWord (normalizeQuery "SELECT (SET)").data = true ∧
    isAlloowedQuery ⟨false, false, false⟩ "SELECT (SET)" = true := by
  decide

/-- C1 (amended): for every SQL string whose normalized text contains a
deny-list verb delimited by whitespace or the ends of the string — the
match the code performs — the validator denies the statement, for every
permission configuration, even when the leading verb is an allowed one; in
particular `SHOW TABLES; SET autocommit=0` is denied. -/
theorem C1_denylist_verb_denies :
    (∀ (p : Permissions) (q : String),
        containsDenyDelimited (normalizeQuery q).data = true →
        isAlloowedQuery p q = false) ∧
    isAlloowedQuery ⟨false, false, false⟩ "SHOW TABLES; SET autocommit=0"
      = false := by
  refine ⟨fun p q h => ?_, by decide⟩
  have hc := containsDisallowed_of_delimited p h
  simp [isAlloowedQuery, hc]

/-- C1 (witness): a concrete denial obtained from the amended theorem. -/
theorem C1_witness :
    isAlloowedQuery ⟨false, false, false⟩ "SELECT 1 WHERE SET 2" = false :=
  C1_denylist_verb_denies.1 ⟨false, false, false⟩ "SELECT 1 WHERE SET 2"
    (by decide)

/-! ## Claim C2 -/

/-- C2: the claim says a statement beginning with INSERT, UPDATE or DELETE
is allowed if and only if the matching permission flag is set.  The code
contradicts both directions: INSERT / UPDATE / DELETE sit unconditionally
in `ALLOWED_COMMANDS` and do not occur in `DISALLOWED_COMMANDS`, so the
flag-guard branches of `containsDisallowed` are dead code and the flags
never influence the result.  With every flag false, DELETE and INSERT
statements are allowed; with every flag true, an ordinary UPDATE statement
is still denied because its SET clause matches the deny list. -/
theorem C2_flags_ignored :
    isAlloowedQuery ⟨false, false, false⟩ "DELETE FROM users WHERE id = 1"
      = true ∧
    isAlloowedQuery ⟨false, false, false⟩ "INSERT INTO t VALUES (1)" = true ∧
    isAlloowedQuery ⟨true, true, true⟩ "UPDATE t SET x = 1" = false := by
  decide

/-! ## Claim C3 -/

/-- C3 (counterexample): the claim promises a denial whenever the
normalized text contains a semicolon that is not exactly the final
character.  `SELECT 1; SELECT 2;` contains such a semicolon (the first
one), yet the validator allows it: the code tests
`includes(";") && !endsWith(";")`, and the trailing semicolon makes the
test false no matter how many internal semicolons occur. -/
theorem C3_counterexample :
    hasInnerSemicolon (normalizeQuery "SELECT 1; SELECT 2;").data = true ∧
    isAlloowedQuery ⟨false, false, false⟩ "SELECT 1; SELECT 2;" = true := by
  decide

/-- C3 (amended): the validator denies every statement whose normalized
text contains a semicolon AND does not end with one; when the text ends
with a semicolon, internal semicolons are tolerated as well.  In
particular `SELECT 1; DROP TABLE x` is denied and `SELECT 1;` is
allowed. -/
theorem C3_semicolon_check :
    (∀ (p : Permissions) (q : String),
        hasMultipleStatements (normalizeQuery q).data = true →
        isAlloowedQuery p q = false) ∧
    isAlloowedQuery ⟨false, false, false⟩ "SELECT 1; DROP TABLE x" = false ∧
    isAlloowedQuery ⟨false, false, false⟩ "SELECT 1;" = true := by
  refine ⟨fun p q h => ?_, by decide, by decide⟩
  simp [isAlloowedQuery, h]

/-- C3 (witness): a concrete multi-statement denial obtained from the
amended theorem. -/
theorem C3_witness :
    isAlloowedQuery ⟨false, false, false⟩ "SELECT 1; SELECT 2" = false :=
  C3_semicolon_check.1 ⟨false, false, false⟩ "SELECT 1; SELECT 2" (by decide)

/-! ## Claim C4 -/

/-- C4: the claim says every successful acquisition is followed by exactly
one release-or-discard on every exit path.  The code instead releases the
connection twice on every error path after a successful acquisition — once
in the catch block and once more in the finally block — and once on
success.  The four conjuncts evaluate the executor on a policy denial, an
upstream statement failure, a context-switch failure, and a success. -/
theorem C4_double_release :
    executeQuery ⟨true, true, QueryOutcome.fail⟩ ⟨false, false, false⟩
        "DROP TABLE t" none
      = (Except.error ExecError.notAllowed, 2) ∧
    executeQuery ⟨true, true, QueryOutcome.fail⟩ ⟨false, false, false⟩
        "SELECT 1" none
      = (Except.error ExecError.upstream, 2) ∧
    executeQuery ⟨true, false, QueryOutcome.fail⟩ ⟨false, false, false⟩
        "SELECT 1" (some "shop")
      = (Except.error ExecError.useFailed, 2) ∧
    executeQuery ⟨true, true, QueryOutcome.ok (RowsValue.arr []) []⟩
        ⟨false, false, false⟩ "SELECT 1" none
      = (Except.ok ⟨RowsValue.arr [], []⟩, 1) := by
  decide

/-! ## Claim C5 -/

/-- C5 (counterexample): the claim says a timed-out connection is
discarded and not released back to the pool.  The code contains no discard
operation at all: when the timeout promise wins the race, the thrown error
goes through the catch and finally blocks, which release the connection
back to the pool twice. -/
theorem C5_counterexample :
    executeQuery ⟨true, true, QueryOutcome.timeout⟩ ⟨false, false, false⟩
        "SELECT 1" none
      = (Except.error ExecError.queryTimeout, 2) := by
  decide

/-- C5 (amended): whenever acquisition succeeds, the context switch (if
any) succeeds, the statement is allowed and the raced execution times out,
the executor raises the timeout error and the connection is released back
to the pool (twice — catch block and finally block), never discarded, so a
timed-out connection can be handed out again. -/
theorem C5_timeout_releases (env : ExecEnv) (p : Permissions) (sql : String)
    (db : Option String) (ha : env.acquireOk = true)
    (ht : env.outcome = QueryOutcome.timeout)
    (hu : db.isSome = true → env.useOk = true)
    (hp : isAlloowedQuery p sql = true) :
    executeQuery env p sql db = (Except.error ExecError.queryTimeout, 2) := by
  cases db with
  | none => simp [executeQuery, ha, ht, hp]
  | some d =>
      have hud : env.useOk = true := hu rfl
      simp [executeQuery, ha, ht, hp, hud]

/-- C5 (witness): the amended theorem applied to a concrete timed-out
call that carries a logical database. -/
theorem C5_witness :
    executeQuery ⟨true, true, QueryOutcome.timeout⟩ ⟨false, false, false⟩
        "SELECT 1" (some "shop")
      = (Except.error ExecError.queryTimeout, 2) :=
  C5_timeout_releases _ _ _ _ rfl rfl (fun _ => rfl) (by decide)

/-! ## Claim C6 -/

/-- C6 (counterexample): the claim says an oversized row-set is marked
`truncated = true` and a small one `truncated = false`.  The code sets no
such marker — `QueryResult` has only `rows` and `fields` — so a query whose
result had 1001 rows upstream returns a value EQUAL to that of a query
whose result had exactly the first 1000 rows, although the claim requires
the two returned results to differ in their truncation mark. -/
theorem C6_counterexample :
    executeQuery
        ⟨true, true, QueryOutcome.ok (RowsValue.arr (List.range 1001)) []⟩
        ⟨false, false, false⟩ "SELECT 1" none
      = executeQuery
        ⟨true, true, QueryOutcome.ok (RowsValue.arr (List.range 1000)) []⟩
        ⟨false, false, false⟩ "SELECT 1" none := by
  have hp : isAlloowedQuery ⟨false, false, false⟩ "SELECT 1" = true := by
    decide
  simp [executeQuery, hp, limitRows, DEFAULT_ROW_LIMIT, List.length_range,
    List.take_range]

/-- C6 (amended): a successful row-set result longer than the row limit is
truncated to exactly the limit, a row-set within the limit is returned
whole, and a scalar (non-array) result passes through unmodified; the
returned record carries only `rows` and `fields` and no truncation
marker. -/
theorem C6_row_limit :
    (∀ (l f : List Nat) (p : Permissions) (sql : String),
        isAlloowedQuery p sql = true → l.length > DEFAULT_ROW_LIMIT →
        (executeQuery ⟨true, true, QueryOutcome.ok (RowsValue.arr l) f⟩
            p sql none).1
          = Except.ok ⟨RowsValue.arr (l.take DEFAULT_ROW_LIMIT), f⟩ ∧
        (l.take DEFAULT_ROW_LIMIT).length = DEFAULT_ROW_LIMIT) ∧
    (∀ (l f : List Nat) (p : Permissions) (sql : String),
        isAlloowedQuery p sql = true → l.length ≤ DEFAULT_ROW_LIMIT →
        (executeQuery ⟨true, true, QueryOutcome.ok (RowsValue.arr l) f⟩
            p sql none).1
          = Except.ok ⟨RowsValue.arr l, f⟩) ∧
    (∀ (v : Nat) (f : List Nat) (p : Permissions) (sql : String),
        isAlloowedQuery p sql = true →
        (executeQuery ⟨true, true, QueryOutcome.ok (RowsValue.scalar v) f⟩
            p sql none).1
          = Except.ok ⟨RowsValue.scalar v, f⟩) := by
  refine ⟨fun l f p sql hp hl => ⟨?_, ?_⟩, fun l f p sql hp hl => ?_,
    fun v f p sql hp => ?_⟩
  · simp [executeQuery, hp, limitRows, hl]
  · simp [List.length_take]
    omega
  · simp [executeQuery, hp, limitRows, Nat.not_lt.mpr hl]
  · simp [executeQuery, hp, limitRows]

/-- C6 (witness): the amended theorem applied to a concrete 1001-row
result. -/
theorem C6_witness :
    (executeQuery
        ⟨true, true, QueryOutcome.ok (RowsValue.arr (List.range 1001)) []⟩
        ⟨false, false, false⟩ "SELECT 1" none).1
      = Except.ok ⟨RowsValue.arr ((List.range 1001).take DEFAULT_ROW_LIMIT),
          []⟩ :=
  (C6_row_limit.1 (List.range 1001) [] ⟨false, false, false⟩ "SELECT 1"
    (by decide) (by simp [List.length_range, DEFAULT_ROW_LIMIT])).1

/-! ## Claim C7 -/

/-- Appending a new entry for a key that is absent makes lookup of that
key find the new entry. -/
theorem findPool_append_self (l : List (String × Nat)) (key : String)
    (v : Nat) (h : findPool l key = none) :
    findPool (l ++ [(key, v)]) key = some v := by
  induction l with
  | nil => simp [findPool]
  | cons kv rest ih =>
      obtain ⟨k, w⟩ := kv
      by_cases hk : (k == key) = true
      · simp [findPool, hk] at h
      · simp only [Bool.not_eq_true] at hk
        simp [findPool, hk] at h ⊢
        exact ih h

/-- C7: the pool key is a function of host, user and default database
alone, lookup is by key, and a missing key is populated exactly once; so a
second call whose config carries the same host, user and default database
returns the pool of the first call and leaves the registry unchanged, and
the first call on an absent key appends exactly one pool.  This holds for
every starting registry state. -/
theorem C7_pool_identity (st : PoolRegistry) (c₁ c₂ : MariaDBConfig)
    (hh : c₁.host = c₂.host) (hu : c₁.user = c₂.user)
    (hd : c₁.database = c₂.database) :
    (getOrCreatePool (getOrCreatePool st c₁).2 c₂).1
        = (getOrCreatePool st c₁).1 ∧
    (getOrCreatePool (getOrCreatePool st c₁).2 c₂).2
        = (getOrCreatePool st c₁).2 ∧
    (findPool st.pools (getPoolKey c₁) = none →
      (getOrCreatePool st c₁).2.pools
        = st.pools ++ [(getPoolKey c₁, st.nextId)]) := by
  have hkey : getPoolKey c₂ = getPoolKey c₁ := by
    simp [getPoolKey, hh, hu, hd]
  cases hfind : findPool st.pools (getPoolKey c₁) with
  | some p => refine ⟨?_, ?_, ?_⟩ <;> simp [getOrCreatePool, hkey, hfind]
  | none =>
      have h2 := findPool_append_self st.pools (getPoolKey c₁) st.nextId hfind
      refine ⟨?_, ?_, ?_⟩ <;> simp [getOrCreatePool, hkey, hfind, h2]

/-- C7 (witness): two acquisitions with the same concrete config on the
empty registry return the same pool. -/
theorem C7_witness :
    (getOrCreatePool
        (getOrCreatePool ⟨[], 0⟩
          ⟨"db.example.com", 3306, "root", "pw", some "shop", false, false,
            false⟩).2
        ⟨"db.example.com", 3306, "root", "pw", some "shop", false, false,
          false⟩).1
      = (getOrCreatePool ⟨[], 0⟩
          ⟨"db.example.com", 3306, "root", "pw", some "shop", false, false,
            false⟩).1 :=
  (C7_pool_identity ⟨[], 0⟩ _ _ rfl rfl rfl).1

/-! ## Claim C8 -/

/-- C8 (counterexample): the claim says a list_tables call with no
database argument and no configured default fails with a MissingParameter
error.  The handler performs no such check: with no argument it is not a
parameter error but the plain `SHOW FULL TABLES` call, and the executor
then attempts no context switch at all (the run succeeds even when the
context switch is poisoned to fail). -/
theorem C8_counterexample :
    isParamError (listTablesHandler none) = false ∧
    listTablesHandler none = ToolAction.execute "SHOW FULL TABLES" none ∧
    (executeQuery ⟨true, false, QueryOutcome.ok (RowsValue.arr []) []⟩
        ⟨false, false, false⟩ "SHOW FULL TABLES" none).1
      = Except.ok ⟨RowsValue.arr [], []⟩ := by
  decide

/-- C8 (amended): list_tables passes its optional database argument
straight through to the executor with the fixed statement
`SHOW FULL TABLES` and never raises a parameter error; when the argument
is absent the statement simply runs with no database selected beyond the
pool default. -/
theorem C8_list_tables_passthrough :
    ∀ db : Option String,
      listTablesHandler db = ToolAction.execute "SHOW FULL TABLES" db ∧
      isParamError (listTablesHandler db) = false :=
  fun _ => ⟨rfl, rfl⟩

/-! ## Claims C9 and C10: identifier quoting -/

/-- Parsing a backtick-free identifier body followed by the closing
backtick consumes the whole body and leaves nothing. -/
theorem parseBacktickIdent_no_backtick (l : List Char)
    (h : l.contains backtick = false) :
    parseBacktickIdent (l ++ [backtick]) = some (l, []) := by
  induction l with
  | nil => decide
  | cons c cs ih =>
      simp only [List.contains_cons, Bool.or_eq_false_iff] at h
      have hc : ¬ c = backtick := by
        intro hceq
        rw [hceq] at h
        simp at h
      simp only [List.cons_append]
      rw [parseBacktickIdent.eq_def]
      simp only [if_neg hc, ih h.2]
      rfl

/-- Parsing a statement formed of a head and a tail starts right after the
head. -/
theorem parseQuotedTail_append (head : String) (r : List Char) :
    parseQuotedTail head (String.mk (head.data ++ r))
      = match parseBacktickIdent r with
        | some p => some (String.mk p.1, String.mk p.2)
        | none => none := by
  have hpre : head.data.isPrefixOf (head.data ++ r) = true := by
    simp [List.isPrefixOf_iff_prefix, List.prefix_append]
  simp only [parseQuotedTail, hpre, if_true, List.drop_left]
  cases parseBacktickIdent r with
  | none => rfl
  | some p => rfl

/-- C9 (counterexample): the claim says the content of the table argument
can never escape the identifier position of the DESCRIBE statement,
whatever the value.  The handler interpolates the argument between
backticks without escaping, so an argument containing a backtick closes
the quoting itself: here MariaDB reads the identifier `x` and the
remainder of the argument stands outside the quotes, after the
identifier. -/
theorem C9_counterexample :
    describeTableHandler (some "d") (some "x` DROP TABLE y; -- ")
      = ToolAction.execute "DESCRIBE `x` DROP TABLE y; -- `" (some "d") ∧
    parseQuotedTail "DESCRIBE `" "DESCRIBE `x` DROP TABLE y; -- `"
      = some ("x", " DROP TABLE y; -- `") ∧
    ¬ ("x" : String) = "x` DROP TABLE y; -- " := by
  decide

/-- C9 (amended): the table argument is interpolated between backticks
without escaping; consequently every nonempty backtick-free table name
stays wholly inside the identifier position (the parsed identifier is the
whole argument and nothing remains before the closing quote), while an
argument containing a backtick can escape it. -/
theorem C9_backtick_free_confined (t : String) (db : Option String)
    (hne : ¬ t = "") (hbt : t.data.contains backtick = false) :
    describeTableHandler db (some t)
      = ToolAction.execute
          ("DESCRIBE " ++ String.mk [backtick] ++ t ++ String.mk [backtick])
          db ∧
    parseQuotedTail "DESCRIBE `"
        ("DESCRIBE " ++ String.mk [backtick] ++ t ++ String.mk [backtick])
      = some (t, "") := by
  constructor
  · simp [describeTableHandler, hne]
  · have hdata :
        ("DESCRIBE " ++ String.mk [backtick] ++ t ++ String.mk [backtick])
          = String.mk ("DESCRIBE `".data ++ (t.data ++ [backtick])) := by
      apply String.ext
      simp [String.data_append]
      decide
    rw [hdata, parseQuotedTail_append,
      parseBacktickIdent_no_backtick t.data hbt]

/-- C9 (witness): the amended theorem applied to the table name
`users`. -/
theorem C9_witness :
    parseQuotedTail "DESCRIBE `"
        ("DESCRIBE " ++ String.mk [backtick] ++ "users" ++
          String.mk [backtick])
      = some ("users", "") :=
  (C9_backtick_free_confined "users" (some "d") (by decide) (by decide)).2

/-- C10: the context-switch statement is built by raw concatenation — the
logical-database argument is inserted verbatim between backticks with no
escaping of backtick characters — and therefore an argument containing a
backtick terminates the identifier quoting itself: for the argument
containing a backtick shown here, MariaDB reads only the part before the
backtick as the identifier and the rest of the argument stands outside the
quotes. -/
theorem C10_use_interpolation :
    (∀ d : String, (buildUseStatement d).data
        = "USE `".data ++ d.data ++ [backtick]) ∧
    ("a`b" : String).data.contains backtick = true ∧
    parseQuotedTail "USE `" (buildUseStatement "a`b") = some ("a", "b`") ∧
    ¬ ("a" : String) = "a`b" := by
  refine ⟨fun d => ?_, by decide, by decide, by decide⟩
  simp [buildUseStatement, String.data_append]
  decide
